import Mathlib

/-!
Shallow embedding of the transform/orchestration core of the
Automated-Agro-Climatic-Data-Warehouse ETL system, together with theorems
settling the frozen claims about it.

Numeric values flowing through the cleaners are embedded as exact rationals
(`ℚ`).  Python's `round(x, n)` is embedded as rounding `x·10^n` to the nearest
integer; Python uses bankers' rounding on binary floats while `round` on `ℚ`
rounds half up — the two agree everywhere except at exact decimal ties, and no
statement below depends on tie behaviour.
-/

/-- Embedding of Python `round(x, n)` on exact rationals: round `x` to `n`
decimal digits. -/
def pyRound (n : ℕ) (x : ℚ) : ℚ :=
  (round (x * (10 : ℚ) ^ n) : ℤ) / (10 : ℚ) ^ n

/-- A raw numeric field value as it reaches the cleaners from an API response:
absent (`Python None`), a finite number, or the two IEEE non-finite shapes
`float("nan")` / `float("inf")` that `etl/transform/cleaners.py` explicitly
tests for in `_clean_numeric` via `np.isnan` / `np.isinf`.  (String-typed
payloads, which `_clean_numeric` would also reject, are outside this model.) -/
inductive RawVal where
  | vNone
  | vNum (q : ℚ)
  | vNaN
  | vInf
deriving DecidableEq, Repr

namespace DataCleaner

/-- `DataCleaner._clean_ph` (cleaners.py lines 388–399): pass through values in
[0,14], divide values in (14,140] by 10 (SoilGrids stores pH×10), otherwise
`None`; results are rounded to 2 decimals. -/
def clean_ph : Option ℚ → Option ℚ
  | Option.none => Option.none
  | some value =>
    if 0 ≤ value ∧ value ≤ 14 then some (pyRound 2 value)
    else if 0 ≤ value ∧ value ≤ 140 then some (pyRound 2 (value / 10))
    else Option.none

/-- `DataCleaner._normalize_water_requirement` (cleaners.py lines 428–443):
[1,40] passes through, [0.01,1.0) is cm/day and ×10, (40,350] is weekly and
÷7, else `None`; results are rounded to 2 decimals. -/
def normalize_water_requirement : Option ℚ → Option ℚ
  | Option.none => Option.none
  | some value =>
    if 1 ≤ value ∧ value ≤ 40 then some (pyRound 2 value)
    else if 1/100 ≤ value ∧ value < 1 then some (pyRound 2 (value * 10))
    else if 40 < value ∧ value ≤ 350 then some (pyRound 2 (value / 7))
    else Option.none

/-- `DataCleaner._clean_numeric` (cleaners.py lines 415–426): `None` stays
`None`, NaN and infinities become `None`, finite numbers are rounded to
3 decimals. -/
def clean_numeric : RawVal → Option ℚ
  | RawVal.vNone => Option.none
  | RawVal.vNum q => some (pyRound 3 q)
  | RawVal.vNaN => Option.none
  | RawVal.vInf => Option.none

/-- `DataCleaner._clean_temperature` (cleaners.py lines 401–413): values above
60 are taken to be Fahrenheit and converted; the (possibly converted) value is
range-checked against `VALID_RANGES['temperature_c'] = (-50, 60)` and rounded
to 1 decimal, out-of-range becomes `None`.  On NaN the `value > 60` comparison
is false and the range check fails; on +inf the converted value is again
infinite and the range check fails — both give `None`. -/
def clean_temperature : RawVal → Option ℚ
  | RawVal.vNone => Option.none
  | RawVal.vNaN => Option.none
  | RawVal.vInf => Option.none
  | RawVal.vNum q =>
    let v := if 60 < q then (q - 32) * 5 / 9 else q
    if -50 ≤ v ∧ v ≤ 60 then some (pyRound 1 v) else Option.none

/-- `DataCleaner._clamp` (cleaners.py lines 526–530). -/
def clamp (value : Option ℚ) (min_val max_val : ℚ) : Option ℚ :=
  value.map (fun q => max min_val (min max_val q))

/-- `DataCleaner._infer_texture` (cleaners.py lines 481–511).  The guard is
Python's `if not all([clay, sand, silt])`, which is taken when any component
is `None` **or equal to `0.0`** (`0.0` is falsy in Python); then the three
shares are normalized to sum 100 and classified through the USDA decision
table. -/
def infer_texture : Option ℚ → Option ℚ → Option ℚ → Option String
  | some clay, some sand, some silt =>
    if clay = 0 ∨ sand = 0 ∨ silt = 0 then Option.none
    else
      let total := clay + sand + silt
      if total = 0 then Option.none
      else
        let clay_pct := clay / total * 100
        let sand_pct := sand / total * 100
        let silt_pct := silt / total * 100
        if 85 ≤ sand_pct ∧ silt_pct + 3/2 * clay_pct < 15 then some "Sand"
        else if 80 ≤ silt_pct ∧ clay_pct < 12 then some "Silt"
        else if 40 ≤ clay_pct then some "Clay"
        else if 52 ≤ sand_pct ∧ silt_pct + 2 * clay_pct < 50 then some "Sandy Loam"
        else if 50 ≤ silt_pct ∧ clay_pct < 27 then some "Silt Loam"
        else if 27 ≤ clay_pct ∧ clay_pct < 40 ∧ 20 < sand_pct then some "Clay Loam"
        else some "Loam"
  | _, _, _ => Option.none

end DataCleaner

/-- Raw weather record as `DataCleaner.clean_weather_data` receives it
(cleaners.py lines 253–305).  The `date` field — parsed through
`pd.to_datetime`, an excluded external collaborator — is not modeled; no
claim depends on it. -/
structure RawWeather where
  temp_max : RawVal
  temp_min : RawVal
  temp_mean : RawVal
  precipitation : RawVal
  evapotranspiration : RawVal
  solar_radiation : RawVal
  humidity : RawVal
  wind_speed : RawVal
deriving DecidableEq, Repr

/-- The cleaned weather record built by `clean_weather_data` (date omitted,
see `RawWeather`). -/
structure CleanedWeather where
  temp_max : Option ℚ
  temp_min : Option ℚ
  temp_mean : Option ℚ
  precipitation : Option ℚ
  evapotranspiration : Option ℚ
  solar_radiation : Option ℚ
  humidity : Option ℚ
  wind_speed : Option ℚ
deriving DecidableEq, Repr

namespace DataCleaner

/-- The expression `max(0, self._clean_numeric(v)) if v is not None else None`
used for the precipitation, solar-radiation and wind-speed fields of
`clean_weather_data`.  When `v` is present but `_clean_numeric` returns `None`
(NaN, infinity), Python evaluates `max(0, None)` and raises `TypeError`;
that raise is the `Except.error` case. -/
def nonneg_field : RawVal → Except String (Option ℚ)
  | RawVal.vNone => Except.ok Option.none
  | v =>
    match clean_numeric v with
    | some q => Except.ok (some (max 0 q))
    | Option.none => Except.error "TypeError: int and NoneType"

/-- `DataCleaner.clean_weather_data` (cleaners.py lines 253–305): clean the
three temperatures, swap `temp_max`/`temp_min` when both are present and
inverted, then the remaining numeric fields in source order; the three
non-negative fields can raise (see `nonneg_field`). -/
def clean_weather_data (data : RawWeather) : Except String CleanedWeather := do
  let tmax0 := clean_temperature data.temp_max
  let tmin0 := clean_temperature data.temp_min
  let tmean := clean_temperature data.temp_mean
  -- Ensure temp_max >= temp_min
  let (tmax, tmin) :=
    match tmax0, tmin0 with
    | some a, some b => if a < b then (some b, some a) else (some a, some b)
    | a, b => (a, b)
  let precip ← nonneg_field data.precipitation
  let evap := clean_numeric data.evapotranspiration
  let solar ← nonneg_field data.solar_radiation
  let hum := clamp (clean_numeric data.humidity) 0 100
  let wind ← nonneg_field data.wind_speed
  Except.ok
    { temp_max := tmax, temp_min := tmin, temp_mean := tmean,
      precipitation := precip, evapotranspiration := evap,
      solar_radiation := solar, humidity := hum, wind_speed := wind }

end DataCleaner

/-- The USDA texture decision table exactly as the specification words it
(spec §4.1): thresholds on already-normalized percentage shares.  Kept
separate from `DataCleaner.infer_texture` (which is translated from the
source) so the two can be compared. -/
def usdaTextureSpec (clay_pct sand_pct silt_pct : ℚ) : String :=
  if 85 ≤ sand_pct ∧ silt_pct + 3/2 * clay_pct < 15 then "Sand"
  else if 80 ≤ silt_pct ∧ clay_pct < 12 then "Silt"
  else if 40 ≤ clay_pct then "Clay"
  else if 52 ≤ sand_pct ∧ silt_pct + 2 * clay_pct < 50 then "Sandy Loam"
  else if 50 ≤ silt_pct ∧ clay_pct < 27 then "Silt Loam"
  else if 27 ≤ clay_pct ∧ clay_pct < 40 ∧ 20 < sand_pct then "Clay Loam"
  else "Loam"

/-! ## Claims C3 and C8: pH cleaning and water normalization -/

/-- Counterexample to claim C3: `_clean_ph` rounds to 2 decimals, so for the
in-range input 6.126 the output is 6.13, not the input itself as the claim
("equals v when v∈[0,14]") demands. -/
theorem C3_clean_ph_counterexample :
    DataCleaner.clean_ph (some (6126 / 1000)) = some (613 / 100) ∧
      (613 / 100 : ℚ) ≠ 6126 / 1000 := by
  constructor
  · norm_num [DataCleaner.clean_ph, pyRound, round_eq]
  · norm_num

/-- Claim C3 as amended: for every numeric pH input `v`, `_clean_ph v` equals
`v` **rounded to 2 decimals** when v∈[0,14], equals `v/10` rounded to
2 decimals when v∈(14,140], and is `None` otherwise (v<0 or v>140); a `None`
input stays `None`. -/
theorem C3_clean_ph_amended : ∀ v : ℚ,
    (0 ≤ v ∧ v ≤ 14 → DataCleaner.clean_ph (some v) = some (pyRound 2 v)) ∧
    (14 < v ∧ v ≤ 140 → DataCleaner.clean_ph (some v) = some (pyRound 2 (v / 10))) ∧
    (v < 0 ∨ 140 < v → DataCleaner.clean_ph (some v) = Option.none) ∧
    DataCleaner.clean_ph Option.none = Option.none := by
  intro v
  refine ⟨fun h => ?_, fun h => ?_, fun h => ?_, rfl⟩
  · simp only [DataCleaner.clean_ph, if_pos h]
  · have h1 : ¬(0 ≤ v ∧ v ≤ 14) := by push_neg; intro _; linarith [h.1]
    have h2 : 0 ≤ v ∧ v ≤ 140 := ⟨by linarith [h.1], h.2⟩
    simp only [DataCleaner.clean_ph, if_neg h1, if_pos h2]
  · rcases h with h | h
    · have h1 : ¬(0 ≤ v ∧ v ≤ 14) := by push_neg; intro h0; linarith
      have h2 : ¬(0 ≤ v ∧ v ≤ 140) := by push_neg; intro h0; linarith
      simp only [DataCleaner.clean_ph, if_neg h1, if_neg h2]
    · have h1 : ¬(0 ≤ v ∧ v ≤ 14) := by push_neg; intro h0; linarith
      have h2 : ¬(0 ≤ v ∧ v ≤ 140) := by push_neg; intro h0; linarith
      simp only [DataCleaner.clean_ph, if_neg h1, if_neg h2]

/-- Counterexample to claim C8: `_normalize_water_requirement` rounds to
2 decimals, so for the in-band input 1.234 the output is 1.23, not the input
itself as the claim ("equals v when v∈[1,40]") demands. -/
theorem C8_normalize_water_counterexample :
    DataCleaner.normalize_water_requirement (some (1234 / 1000)) = some (123 / 100) ∧
      (123 / 100 : ℚ) ≠ 1234 / 1000 := by
  constructor
  · norm_num [DataCleaner.normalize_water_requirement, pyRound, round_eq]
  · norm_num

/-- Claim C8 as amended: `_normalize_water_requirement v` equals `v` rounded
to 2 decimals when v∈[1,40], `v×10` rounded to 2 decimals when v∈[0.01,1.0),
`v/7` rounded to 2 decimals when v∈(40,350], and `None` outside all three
bands (earlier bands take priority — the stated bands are disjoint); the three
quoted examples hold exactly because they round to themselves. -/
theorem C8_normalize_water_amended : (∀ v : ℚ,
    (1 ≤ v ∧ v ≤ 40 →
      DataCleaner.normalize_water_requirement (some v) = some (pyRound 2 v)) ∧
    (1/100 ≤ v ∧ v < 1 →
      DataCleaner.normalize_water_requirement (some v) = some (pyRound 2 (v * 10))) ∧
    (40 < v ∧ v ≤ 350 →
      DataCleaner.normalize_water_requirement (some v) = some (pyRound 2 (v / 7))) ∧
    (v < 1/100 ∨ 350 < v →
      DataCleaner.normalize_water_requirement (some v) = Option.none)) ∧
    DataCleaner.normalize_water_requirement (some 5) = some 5 ∧
    DataCleaner.normalize_water_requirement (some (1/2)) = some 5 ∧
    DataCleaner.normalize_water_requirement (some 49) = some 7 := by
  refine ⟨fun v => ⟨fun h => ?_, fun h => ?_, fun h => ?_, fun h => ?_⟩, ?_, ?_, ?_⟩
  · simp only [DataCleaner.normalize_water_requirement, if_pos h]
  · have h1 : ¬(1 ≤ v ∧ v ≤ 40) := by push_neg; intro h0; linarith [h.2]
    simp only [DataCleaner.normalize_water_requirement, if_neg h1, if_pos h]
  · have h1 : ¬(1 ≤ v ∧ v ≤ 40) := by push_neg; intro h0; linarith [h.1]
    have h2 : ¬(1/100 ≤ v ∧ v < 1) := by push_neg; intro h0; linarith [h.1]
    simp only [DataCleaner.normalize_water_requirement, if_neg h1, if_neg h2, if_pos h]
  · rcases h with h | h
    · have h1 : ¬(1 ≤ v ∧ v ≤ 40) := by push_neg; intro h0; linarith
      have h2 : ¬(1/100 ≤ v ∧ v < 1) := by push_neg; intro h0; linarith
      have h3 : ¬(40 < v ∧ v ≤ 350) := by push_neg; intro h0; linarith
      simp only [DataCleaner.normalize_water_requirement, if_neg h1, if_neg h2, if_neg h3]
    · have h1 : ¬(1 ≤ v ∧ v ≤ 40) := by push_neg; intro h0; linarith
      have h2 : ¬(1/100 ≤ v ∧ v < 1) := by push_neg; intro h0; linarith
      have h3 : ¬(40 < v ∧ v ≤ 350) := by push_neg; intro h0; linarith
      simp only [DataCleaner.normalize_water_requirement, if_neg h1, if_neg h2, if_neg h3]
  · norm_num [DataCleaner.normalize_water_requirement, pyRound, round_eq]
  · norm_num [DataCleaner.normalize_water_requirement, pyRound, round_eq]
  · norm_num [DataCleaner.normalize_water_requirement, pyRound, round_eq]

/-! ## Claim C6: texture inference -/

/-- Counterexample to claim C6: with all three components supplied but clay
equal to 0 (a legitimate percentage), `_infer_texture` returns `None` — the
Python guard `if not all([clay, sand, silt])` treats `0.0` as missing — so a
classification is *not* produced whenever all three components are supplied. -/
theorem C6_infer_texture_counterexample :
    DataCleaner.infer_texture (some 0) (some 50) (some 50) = Option.none := by
  norm_num [DataCleaner.infer_texture]

/-- Claim C6 as amended: whenever all three clay/sand/silt components are
supplied **and nonzero** (shown here for positive components), texture
inference recomputes the three shares normalized to sum 100 and classifies
them by the fixed decision table of the specification (`usdaTextureSpec`),
never returning `None`; a supplied component equal to 0 instead yields
`None` (see the counterexample). -/
theorem C6_infer_texture_amended : ∀ clay sand silt : ℚ,
    0 < clay → 0 < sand → 0 < silt →
    DataCleaner.infer_texture (some clay) (some sand) (some silt) =
      some (usdaTextureSpec (clay / (clay + sand + silt) * 100)
        (sand / (clay + sand + silt) * 100) (silt / (clay + sand + silt) * 100)) ∧
    clay / (clay + sand + silt) * 100 + sand / (clay + sand + silt) * 100 +
      silt / (clay + sand + silt) * 100 = 100 := by
  intro clay sand silt hc hs hsi
  have ht : clay + sand + silt ≠ 0 := by positivity
  constructor
  · have hz : ¬(clay = 0 ∨ sand = 0 ∨ silt = 0) := by
      push_neg
      exact ⟨ne_of_gt hc, ne_of_gt hs, ne_of_gt hsi⟩
    simp only [DataCleaner.infer_texture, if_neg hz, if_neg ht, usdaTextureSpec]
    split_ifs <;> rfl
  · field_simp
    ring

/-- Witness for `C6_infer_texture_amended` at clay=20, sand=40, silt=40. -/
theorem C6_infer_texture_witness :
    DataCleaner.infer_texture (some 20) (some 40) (some 40) =
      some (usdaTextureSpec (20 / (20 + 40 + 40) * 100)
        (40 / (20 + 40 + 40) * 100) (40 / (20 + 40 + 40) * 100)) :=
  (C6_infer_texture_amended 20 40 40 (by norm_num) (by norm_num) (by norm_num)).1

/-! ## Claims C4 and C5: weather cleaning -/

/-- A raw field that is absent or a finite number (the inputs on which the
`max(0, _clean_numeric(v))` expression cannot raise). -/
def finiteOrAbsent (v : RawVal) : Prop := v = RawVal.vNone ∨ ∃ q, v = RawVal.vNum q

/-- On an absent or finite field, `nonneg_field` succeeds: `None` propagates
to `None`, a finite value is rounded and clamped below by 0, and any produced
number is non-negative. -/
theorem nonneg_field_ok (v : RawVal) (h : finiteOrAbsent v) :
    ∃ o, DataCleaner.nonneg_field v = Except.ok o ∧
      (v = RawVal.vNone → o = Option.none) ∧
      (∀ q, v = RawVal.vNum q → o = some (max 0 (pyRound 3 q))) ∧
      (∀ x, o = some x → 0 ≤ x) := by
  rcases h with rfl | ⟨q, rfl⟩
  · refine ⟨Option.none, rfl, fun _ => rfl, ?_, ?_⟩
    · intro q h
      cases h
    · intro x h
      cases h
  · refine ⟨some (max 0 (pyRound 3 q)), rfl, ?_, ?_, ?_⟩
    · intro h
      cases h
    · intro q' h
      cases h
      rfl
    · intro x h
      injection h with h
      subst h
      exact le_max_left 0 _

/-- Counterexample to claim C4: for a weather record whose precipitation field
is present but NaN, `clean_weather_data` raises (`max(0, None)` is a
`TypeError` in Python, since `_clean_numeric` maps NaN to `None`) — cleaning
is not total on the precipitation/solar/wind fields. -/
theorem C4_clean_weather_counterexample :
    DataCleaner.clean_weather_data
      { temp_max := RawVal.vNone, temp_min := RawVal.vNone, temp_mean := RawVal.vNone,
        precipitation := RawVal.vNaN, evapotranspiration := RawVal.vNone,
        solar_radiation := RawVal.vNone, humidity := RawVal.vNone,
        wind_speed := RawVal.vNone } =
      Except.error "TypeError: int and NoneType" := rfl

/-- Claim C4 as amended: `clean_weather_data` never raises on the
precipitation, solar-radiation and wind-speed fields **provided each present
value is a finite number**; each present finite value is clamped to be
non-negative (after the 3-decimal rounding of `_clean_numeric`), an absent
(`None`) input field yields a `None` output field, and every produced value is
non-negative.  A present non-finite value (NaN or infinity) instead raises a
`TypeError` (see the counterexample). -/
theorem C4_clean_weather_amended : ∀ d : RawWeather,
    finiteOrAbsent d.precipitation → finiteOrAbsent d.solar_radiation →
    finiteOrAbsent d.wind_speed →
    ∃ out, DataCleaner.clean_weather_data d = Except.ok out ∧
      ((d.precipitation = RawVal.vNone → out.precipitation = Option.none) ∧
        (∀ q, d.precipitation = RawVal.vNum q →
          out.precipitation = some (max 0 (pyRound 3 q))) ∧
        (∀ x, out.precipitation = some x → 0 ≤ x)) ∧
      ((d.solar_radiation = RawVal.vNone → out.solar_radiation = Option.none) ∧
        (∀ q, d.solar_radiation = RawVal.vNum q →
          out.solar_radiation = some (max 0 (pyRound 3 q))) ∧
        (∀ x, out.solar_radiation = some x → 0 ≤ x)) ∧
      ((d.wind_speed = RawVal.vNone → out.wind_speed = Option.none) ∧
        (∀ q, d.wind_speed = RawVal.vNum q →
          out.wind_speed = some (max 0 (pyRound 3 q))) ∧
        (∀ x, out.wind_speed = some x → 0 ≤ x)) := by
  intro d h1 h2 h3
  obtain ⟨o1, e1, n1, m1, p1⟩ := nonneg_field_ok _ h1
  obtain ⟨o2, e2, n2, m2, p2⟩ := nonneg_field_ok _ h2
  obtain ⟨o3, e3, n3, m3, p3⟩ := nonneg_field_ok _ h3
  cases hcw : DataCleaner.clean_weather_data d with
  | error e =>
    simp only [DataCleaner.clean_weather_data, e1, e2, e3, Bind.bind, Except.bind] at hcw
    exact Except.noConfusion hcw
  | ok out =>
    simp only [DataCleaner.clean_weather_data, e1, e2, e3, Bind.bind, Except.bind,
      Except.ok.injEq] at hcw
    subst hcw
    exact ⟨_, rfl, ⟨n1, m1, p1⟩, ⟨n2, m2, p2⟩, ⟨n3, m3, p3⟩⟩

/-- Input for the C4 witness: precipitation −2 (finite, negative), solar
radiation absent, wind speed 3. -/
def c4RawInput : RawWeather :=
  { temp_max := RawVal.vNone, temp_min := RawVal.vNone, temp_mean := RawVal.vNone,
    precipitation := RawVal.vNum (-2), evapotranspiration := RawVal.vNone,
    solar_radiation := RawVal.vNone, humidity := RawVal.vNone,
    wind_speed := RawVal.vNum 3 }

/-- Witness for `C4_clean_weather_amended`: on `c4RawInput` cleaning
succeeds. -/
theorem C4_clean_weather_witness :
    ∃ out, DataCleaner.clean_weather_data c4RawInput = Except.ok out :=
  (C4_clean_weather_amended c4RawInput (Or.inr ⟨-2, rfl⟩) (Or.inl rfl)
    (Or.inr ⟨3, rfl⟩)).elim fun out h => ⟨out, h.1⟩

/-- Claim C5: whenever both cleaned temperatures are present,
`clean_weather_data` guarantees `temp_max ≥ temp_min`, and an inverted pair
(cleaned max < cleaned min) is swapped with both values preserved, never
dropped. -/
theorem C5_temp_swap : ∀ (d : RawWeather) (out : CleanedWeather),
    DataCleaner.clean_weather_data d = Except.ok out →
    (∀ a b, out.temp_max = some a → out.temp_min = some b → b ≤ a) ∧
    (∀ x y, DataCleaner.clean_temperature d.temp_max = some x →
      DataCleaner.clean_temperature d.temp_min = some y → x < y →
      out.temp_max = some y ∧ out.temp_min = some x) := by
  intro d out h
  cases hp : DataCleaner.nonneg_field d.precipitation with
  | error e => simp [DataCleaner.clean_weather_data, hp, Bind.bind, Except.bind] at h
  | ok o1 =>
  cases hs : DataCleaner.nonneg_field d.solar_radiation with
  | error e => simp [DataCleaner.clean_weather_data, hp, hs, Bind.bind, Except.bind] at h
  | ok o2 =>
  cases hw : DataCleaner.nonneg_field d.wind_speed with
  | error e => simp [DataCleaner.clean_weather_data, hp, hs, hw, Bind.bind, Except.bind] at h
  | ok o3 =>
  simp only [DataCleaner.clean_weather_data, hp, hs, hw, Bind.bind, Except.bind,
    Except.ok.injEq] at h
  subst h
  constructor
  · intro a b ha hb
    cases ht : DataCleaner.clean_temperature d.temp_max with
    | none =>
      cases hn : DataCleaner.clean_temperature d.temp_min <;>
        simp [ht, hn] at ha hb
    | some a2 =>
      cases hn : DataCleaner.clean_temperature d.temp_min with
      | none => simp [ht, hn] at ha hb
      | some b2 =>
        simp only [ht, hn] at ha hb
        by_cases hlt : a2 < b2
        · simp only [if_pos hlt, Option.some.injEq] at ha hb
          subst ha
          subst hb
          exact le_of_lt hlt
        · simp only [if_neg hlt, Option.some.injEq] at ha hb
          subst ha
          subst hb
          exact le_of_not_lt hlt
  · intro x y hx hy hlt
    simp [hx, hy, if_pos hlt]

/-- Raw input for the C5 witness: cleaned temp_max 15 below cleaned
temp_min 25 (the spec's own example of an inverted pair). -/
def c5RawInput : RawWeather :=
  { temp_max := RawVal.vNum 15, temp_min := RawVal.vNum 25, temp_mean := RawVal.vNone,
    precipitation := RawVal.vNone, evapotranspiration := RawVal.vNone,
    solar_radiation := RawVal.vNone, humidity := RawVal.vNone,
    wind_speed := RawVal.vNone }

/-- The cleaned record the pipeline produces for `c5RawInput`: the inverted
pair (15, 25) has been swapped to (25, 15). -/
def c5Cleaned : CleanedWeather :=
  { temp_max := some 25, temp_min := some 15, temp_mean := Option.none,
    precipitation := Option.none, evapotranspiration := Option.none,
    solar_radiation := Option.none, humidity := Option.none,
    wind_speed := Option.none }

/-- Witness for `C5_temp_swap` at the spec's example: cleaned inputs
temp_max=15, temp_min=25 end as (25, 15). -/
theorem C5_temp_swap_witness : c5Cleaned.temp_max = some 25 ∧ c5Cleaned.temp_min = some 15 :=
  (C5_temp_swap c5RawInput c5Cleaned
      (by norm_num [DataCleaner.clean_weather_data, DataCleaner.clean_temperature,
        DataCleaner.nonneg_field, DataCleaner.clean_numeric, DataCleaner.clamp,
        pyRound, round_eq, Bind.bind, Except.bind, c5RawInput, c5Cleaned])).2 15 25
    (by norm_num [DataCleaner.clean_temperature, pyRound, round_eq, c5RawInput])
    (by norm_num [DataCleaner.clean_temperature, pyRound, round_eq, c5RawInput])
    (by norm_num)

/-! ## Claim C7: confidence scoring and evidence cap -/

namespace CropRequirementExtractor

/-- `CropRequirementExtractor._calculate_confidence` (nlp_extractor.py lines
180–196): base contributions 0.3/0.3/0.2/0.2 for the four extracted
requirement kinds, plus an evidence bonus `min(evidence_count * 0.05, 0.2)`,
the sum capped at 1.0. -/
def calculate_confidence (has_temp has_water has_sun has_ph : Bool)
    (evidence_count : ℕ) : ℚ :=
  let base_score : ℚ :=
    (if has_temp then (0.3 : ℚ) else 0) + (if has_water then (0.3 : ℚ) else 0) +
      (if has_sun then (0.2 : ℚ) else 0) + (if has_ph then (0.2 : ℚ) else 0)
  let evidence_bonus : ℚ := min ((evidence_count : ℚ) * 0.05) 0.2
  min (base_score + evidence_bonus) 1

/-- The outcomes of the four sub-extractions inside
`CropRequirementExtractor.extract` (nlp_extractor.py lines 70–115):
`_extract_temperature` and `_extract_ph` return a value pair plus a list of
evidence snippets, `_extract_water` and `_extract_sunlight` a value plus an
optional snippet.  `extract` is quantified over these outcomes, so the claim
is settled for every possible sub-extraction result (hence for every input
text). -/
structure SubExtractions where
  temp : Option (ℚ × ℚ)
  tempEvidence : List (List Char)
  water : Option ℚ
  waterEvidence : Option (List Char)
  sun : Option ℚ
  sunEvidence : Option (List Char)
  ph : Option (ℚ × ℚ)
  phEvidence : List (List Char)

/-- `if evidence: evidence.append(e)` for an optional snippet: Python skips
both `None` and the empty string (both falsy). -/
def optEvidence : Option (List Char) → List (List Char)
  | Option.none => []
  | some e => if e = [] then [] else [e]

/-- The `evidence` list assembled by `extract`: temperature snippets, then the
water and sunlight snippets when present and non-empty, then pH snippets.
(`evidence.extend(xs)` behind `if xs:` equals plain concatenation: extending
by an empty list is a no-op.) -/
def assembled_evidence (r : SubExtractions) : List (List Char) :=
  r.tempEvidence ++ optEvidence r.waterEvidence ++ optEvidence r.sunEvidence ++
    r.phEvidence

/-- The `ExtractedRequirements` dataclass (nlp_extractor.py lines 15–26),
minus the `crop_name`/`extraction_method` strings no claim depends on. -/
structure ExtractedRequirements where
  temp_min_c : Option ℚ
  temp_max_c : Option ℚ
  water_mm_day : Option ℚ
  sunlight_hours : Option ℚ
  ph_min : Option ℚ
  ph_max : Option ℚ
  confidence_score : ℚ
  raw_evidence : List (List Char)

/-- The tail of `CropRequirementExtractor.extract` (nlp_extractor.py lines
95–115): compute the confidence from the presence flags and the evidence
count, and keep only the first 5 evidence snippets (`evidence[:5]`). -/
def extract_from (r : SubExtractions) : ExtractedRequirements :=
  let evidence := assembled_evidence r
  let confidence := calculate_confidence r.temp.isSome r.water.isSome
    r.sun.isSome r.ph.isSome evidence.length
  { temp_min_c := r.temp.map Prod.fst, temp_max_c := r.temp.map Prod.snd,
    water_mm_day := r.water, sunlight_hours := r.sun,
    ph_min := r.ph.map Prod.fst, ph_max := r.ph.map Prod.snd,
    confidence_score := confidence, raw_evidence := evidence.take 5 }

end CropRequirementExtractor

/-- Claim C7: for every extraction result, the confidence score equals
`min(1.0, b + min(0.05 × evidence_count, 0.20))` with `b` summing 0.30 for
temperature, 0.30 for water, 0.20 for sunlight and 0.20 for pH; the score
lies in [0,1]; and the evidence retained on the returned record has at most
5 snippets. -/
theorem C7_confidence_score : ∀ r : CropRequirementExtractor.SubExtractions,
    (CropRequirementExtractor.extract_from r).confidence_score =
      min 1 (((if r.temp.isSome then (0.3 : ℚ) else 0) +
          (if r.water.isSome then (0.3 : ℚ) else 0) +
          (if r.sun.isSome then (0.2 : ℚ) else 0) +
          (if r.ph.isSome then (0.2 : ℚ) else 0)) +
        min ((0.05 : ℚ) * (CropRequirementExtractor.assembled_evidence r).length) 0.2) ∧
    0 ≤ (CropRequirementExtractor.extract_from r).confidence_score ∧
    (CropRequirementExtractor.extract_from r).confidence_score ≤ 1 ∧
    (CropRequirementExtractor.extract_from r).raw_evidence.length ≤ 5 := by
  intro r
  have hb : 0 ≤ (if r.temp.isSome then (0.3 : ℚ) else 0) +
      (if r.water.isSome then (0.3 : ℚ) else 0) +
      (if r.sun.isSome then (0.2 : ℚ) else 0) +
      (if r.ph.isSome then (0.2 : ℚ) else 0) := by
    split_ifs <;> norm_num
  refine ⟨?_, ?_, ?_, ?_⟩
  · show CropRequirementExtractor.calculate_confidence _ _ _ _ _ = _
    simp only [CropRequirementExtractor.calculate_confidence]
    rw [min_comm]
    congr 1
    rw [mul_comm]
  · show (0 : ℚ) ≤ CropRequirementExtractor.calculate_confidence _ _ _ _ _
    simp only [CropRequirementExtractor.calculate_confidence]
    refine le_min (add_nonneg hb (le_min (by positivity) (by norm_num))) (by norm_num)
  · show CropRequirementExtractor.calculate_confidence _ _ _ _ _ ≤ 1
    simp only [CropRequirementExtractor.calculate_confidence]
    exact min_le_right _ _
  · show (List.take 5 _).length ≤ 5
    simp [List.length_take]

/-! ## Claims C1 and C2: pipeline orchestration and batch audit

The orchestrator (`etl/orchestrator.py`) sequences collaborator calls —
extraction over HTTP, transformation, warehouse loading — inside one
`try/except` per domain pipeline.  Each collaborator call is embedded as an
`Except String` outcome supplied by an environment record, so the theorems
quantify over every behaviour of the excluded collaborators (success with any
value, or a raised exception with any message).  The audit row writes
(`_init_audit`, `WarehouseLoader.audit_completion`) are plain single-row
database writes on the opaque store and are modeled as non-failing; each
pipeline function returns the call's outcome together with the final state of
the batch's audit row. -/

/-- Audit status domain (spec §3: status ∈ {RUNNING, SUCCESS, FAILED}). -/
inductive BatchStatus where
  | RUNNING
  | SUCCESS
  | FAILED
deriving DecidableEq, Repr

/-- The batch's row in `etl_audit_log`, reduced to the fields the claims are
about: `_init_audit` writes it with status RUNNING, `audit_completion`
overwrites status, processed count and error message. -/
structure AuditRow where
  status : BatchStatus
  records_processed : ℕ
  error_message : Option String
deriving DecidableEq, Repr

namespace ETLPipeline

/-- `SoilData` (extract/soil_api.py dataclass), reduced to the coordinate
fields; only the number and presence of records matters to orchestration. -/
structure SoilData where
  latitude : ℚ
  longitude : ℚ
deriving DecidableEq, Repr

/-- Collaborator outcomes for one run of `run_soil_pipeline`:
`SoilGridsExtractor.extract` (may raise), and the transform-and-load phase on
non-empty data (location loading, per-record transform, soil loading — DB and
network calls that may raise), collapsed into one fallible step returning the
loaded count. -/
structure SoilRunEnv where
  extract : Except String (List SoilData)
  transform_and_load : List SoilData → Except String ℕ

/-- The exception Python raises at `self._complete_audit(batch_id, "SUCCESS",
0)` (orchestrator.py line 41): no method `_complete_audit` is defined
anywhere in `ETLPipeline` (only `_init_audit` is), so attribute lookup
fails. -/
def attrError : String :=
  "AttributeError: ETLPipeline object has no attribute _complete_audit"

/-- The `try:` body of `run_soil_pipeline` (orchestrator.py lines 35–73).
When the extraction returns an empty list, the source calls the nonexistent
method `_complete_audit`, which raises `AttributeError` instead of marking
the audit SUCCESS and returning 0. -/
def soil_body (env : SoilRunEnv) : Except String ℕ := do
  let soil_data ← env.extract
  if soil_data.isEmpty then
    throw attrError
  else
    env.transform_and_load soil_data

/-- `run_soil_pipeline` (orchestrator.py lines 30–79): `_init_audit` writes a
RUNNING audit row; the body then either returns a count — having written the
SUCCESS audit row via `loader.audit_completion("SUCCESS", loaded)` — or
raises, in which case the handler writes the FAILED audit row with the
exception text and re-raises.  Result: (call outcome, final audit row). -/
def run_soil_pipeline (env : SoilRunEnv) : Except String ℕ × AuditRow :=
  match soil_body env with
  | Except.ok loaded =>
    (Except.ok loaded, ⟨BatchStatus.SUCCESS, loaded, Option.none⟩)
  | Except.error e => (Except.error e, ⟨BatchStatus.FAILED, 0, some e⟩)

/-- `WeatherData` (extract/weather_api.py dataclass), reduced to its date;
orchestration never inspects the fields. -/
structure WeatherData where
  date : String
deriving DecidableEq, Repr

/-- Collaborator outcomes for one run of `run_weather_pipeline`: the upfront
location load (returning the hash lookup as a map from coordinate),
per-coordinate historical extraction, and the per-coordinate
transform-and-load step (`transform_weather` over the records, then
`load_weather_data`), each fallible. -/
structure WeatherRunEnv where
  coordinates : List (ℚ × ℚ)
  load_locations : Except String ((ℚ × ℚ) → Option ℕ)
  extract_historical : (ℚ × ℚ) → Except String (List WeatherData)
  transform_and_load : (ℚ × ℚ) → ℕ → List WeatherData → Except String ℕ

/-- The `try:` body of `run_weather_pipeline` (orchestrator.py lines 89–127):
load locations, then per coordinate extract, skip coordinates without a
location key (`continue`), transform and load the rest, accumulating the
total count. -/
def weather_body (env : WeatherRunEnv) : Except String ℕ := do
  let location_map ← env.load_locations
  env.coordinates.foldlM
    (fun total coord => do
      let weather_data ← env.extract_historical coord
      match location_map coord with
      | Option.none => pure total
      | some loc_key => do
        let loaded ← env.transform_and_load coord loc_key weather_data
        pure (total + loaded))
    0

/-- `run_weather_pipeline` (orchestrator.py lines 81–133): same audit
bracketing as the soil pipeline. -/
def run_weather_pipeline (env : WeatherRunEnv) : Except String ℕ × AuditRow :=
  match weather_body env with
  | Except.ok total =>
    (Except.ok total, ⟨BatchStatus.SUCCESS, total, Option.none⟩)
  | Except.error e => (Except.error e, ⟨BatchStatus.FAILED, 0, some e⟩)

/-- A scraped crop source (web_scraper.py), reduced to the crop name. -/
structure CropSource where
  crop_name : String
deriving DecidableEq, Repr

/-- A crop dimension row ready for loading, reduced to the crop name. -/
structure CropRecord where
  crop_name : String
deriving DecidableEq, Repr

/-- Collaborator outcomes for one run of `run_crop_pipeline`: scraping, the
NLP extraction plus schema transform over the sources, and the dimension
load, each fallible. -/
structure CropRunEnv where
  scrape : Except String (List CropSource)
  nlp_and_transform : List CropSource → Except String (List CropRecord)
  load_crop_requirements : List CropRecord → Except String ℕ

/-- The `try:` body of `run_crop_pipeline` (orchestrator.py lines 140–160). -/
def crop_body (env : CropRunEnv) : Except String ℕ := do
  let sources ← env.scrape
  let crop_records ← env.nlp_and_transform sources
  env.load_crop_requirements crop_records

/-- `run_crop_pipeline` (orchestrator.py lines 135–166): same audit
bracketing as the soil pipeline. -/
def run_crop_pipeline (env : CropRunEnv) : Except String ℕ × AuditRow :=
  match crop_body env with
  | Except.ok loaded =>
    (Except.ok loaded, ⟨BatchStatus.SUCCESS, loaded, Option.none⟩)
  | Except.error e => (Except.error e, ⟨BatchStatus.FAILED, 0, some e⟩)

end ETLPipeline

/-- Claim C1 at the failing input (extraction returns the empty list): the
soil pipeline does **not** mark the audit SUCCESS with 0 records and return
0 — the call `self._complete_audit(batch_id, "SUCCESS", 0)` names a method
that does not exist on `ETLPipeline`, so Python raises `AttributeError`, the
handler marks the audit FAILED with that message, and the exception is
re-raised. -/
theorem C1_empty_extraction_bug :
    ETLPipeline.run_soil_pipeline
      { extract := Except.ok [], transform_and_load := fun _ => Except.ok 0 } =
      (Except.error ETLPipeline.attrError,
        ⟨BatchStatus.FAILED, 0, some ETLPipeline.attrError⟩) := rfl

/-- Claim C2: for every behaviour of the collaborators, each domain pipeline
run that reaches audit initialization ends with the audit row in status
SUCCESS or FAILED — never left RUNNING — and whenever the call re-raises an
exception `e`, the audit row was set to FAILED with 0 records and message
`e` before the re-raise. -/
theorem C2_audit_terminal :
    ∀ (se : ETLPipeline.SoilRunEnv) (we : ETLPipeline.WeatherRunEnv)
      (ce : ETLPipeline.CropRunEnv),
    (((ETLPipeline.run_soil_pipeline se).2.status = BatchStatus.SUCCESS ∨
        (ETLPipeline.run_soil_pipeline se).2.status = BatchStatus.FAILED) ∧
      (ETLPipeline.run_soil_pipeline se).2.status ≠ BatchStatus.RUNNING ∧
      (∀ e, (ETLPipeline.run_soil_pipeline se).1 = Except.error e →
        (ETLPipeline.run_soil_pipeline se).2 = ⟨BatchStatus.FAILED, 0, some e⟩)) ∧
    (((ETLPipeline.run_weather_pipeline we).2.status = BatchStatus.SUCCESS ∨
        (ETLPipeline.run_weather_pipeline we).2.status = BatchStatus.FAILED) ∧
      (ETLPipeline.run_weather_pipeline we).2.status ≠ BatchStatus.RUNNING ∧
      (∀ e, (ETLPipeline.run_weather_pipeline we).1 = Except.error e →
        (ETLPipeline.run_weather_pipeline we).2 = ⟨BatchStatus.FAILED, 0, some e⟩)) ∧
    (((ETLPipeline.run_crop_pipeline ce).2.status = BatchStatus.SUCCESS ∨
        (ETLPipeline.run_crop_pipeline ce).2.status = BatchStatus.FAILED) ∧
      (ETLPipeline.run_crop_pipeline ce).2.status ≠ BatchStatus.RUNNING ∧
      (∀ e, (ETLPipeline.run_crop_pipeline ce).1 = Except.error e →
        (ETLPipeline.run_crop_pipeline ce).2 = ⟨BatchStatus.FAILED, 0, some e⟩)) := by
  intro se we ce
  refine ⟨?_, ?_, ?_⟩
  · unfold ETLPipeline.run_soil_pipeline
    cases ETLPipeline.soil_body se with
    | ok n => exact ⟨Or.inl rfl, by simp, fun e h => by cases h⟩
    | error e =>
      refine ⟨Or.inr rfl, by simp, fun e' h => ?_⟩
      injection h with h
      subst h
      rfl
  · unfold ETLPipeline.run_weather_pipeline
    cases ETLPipeline.weather_body we with
    | ok n => exact ⟨Or.inl rfl, by simp, fun e h => by cases h⟩
    | error e =>
      refine ⟨Or.inr rfl, by simp, fun e' h => ?_⟩
      injection h with h
      subst h
      rfl
  · unfold ETLPipeline.run_crop_pipeline
    cases ETLPipeline.crop_body ce with
    | ok n => exact ⟨Or.inl rfl, by simp, fun e h => by cases h⟩
    | error e =>
      refine ⟨Or.inr rfl, by simp, fun e' h => ?_⟩
      injection h with h
      subst h
      rfl

/-! ## Claim C9: sentence extraction

`TextCleaner.extract_sentences` (cleaners.py lines 177–183) works on Python
strings; here text is a `List Char`.  The two regex passes are embedded
directly: the substitution `(Dr|Mr|Mrs|Ms|Prof|Sr|Jr|vs|vol|fig|et al)\.` →
`\1<DOT>` scans left to right trying the alternatives in order at each
position (an alternative matches only when followed by a literal dot, exactly
as the regex requires), and `re.split(r'(?<=[.!?])\s+', text)` cuts at every
maximal whitespace run immediately preceded by a sentence-ending punctuation
character.  The recursions carry a fuel argument bounded by the input length
(each step consumes at least one character) so that all functions evaluate by
`decide`. -/

namespace TextCleaner

/-- ASCII whitespace: the characters matched by Python's `\s` and stripped by
`str.strip()` (non-ASCII whitespace is outside this model). -/
def isPySpace (c : Char) : Bool :=
  c == ' ' || c == '\t' || c == '\n' || c == '\r' || c == '\x0b' || c == '\x0c'

/-- `startsWithChars p s`: `s` begins with `p`. -/
def startsWithChars : List Char → List Char → Bool
  | [], _ => true
  | _ :: _, [] => false
  | a :: as, c :: cs => a == c && startsWithChars as cs

/-- The ordered alternatives of the abbreviation-protection pattern
`(Dr|Mr|Mrs|Ms|Prof|Sr|Jr|vs|vol|fig|et al)\.` (cleaners.py line 180). -/
def protectedAbbrevs : List (List Char) :=
  ["Dr".toList, "Mr".toList, "Mrs".toList, "Ms".toList, "Prof".toList,
    "Sr".toList, "Jr".toList, "vs".toList, "vol".toList, "fig".toList,
    "et al".toList]

/-- The replacement marker `<DOT>`. -/
def dotToken : List Char := "<DOT>".toList

/-- One left-to-right pass of `re.sub(r'(…)\.', r'\1<DOT>', text)`: at each
position, the first alternative followed by a literal `.` is rewritten to the
alternative plus `<DOT>`; otherwise the character is copied. -/
def protectDotsF : ℕ → List Char → List Char
  | 0, s => s
  | fuel + 1, s =>
    match s with
    | [] => []
    | c :: cs =>
      match protectedAbbrevs.find? (fun a => startsWithChars (a ++ ['.']) (c :: cs)) with
      | some a => a ++ dotToken ++ protectDotsF fuel ((c :: cs).drop (a.length + 1))
      | Option.none => c :: protectDotsF fuel cs

/-- The abbreviation-protection substitution. -/
def protectDots (s : List Char) : List Char := protectDotsF s.length s

/-- A sentence-ending punctuation character, the class `[.!?]`. -/
def isEndPunct (c : Char) : Bool := c == '.' || c == '!' || c == '?'

/-- Whether the list starts with a whitespace character. -/
def headIsSpace : List Char → Bool
  | [] => false
  | d :: _ => isPySpace d

/-- `re.split(r'(?<=[.!?])\s+', text)`: cut after each `[.!?]` that is
followed by whitespace, discarding the whole whitespace run; `acc` holds the
current fragment reversed. -/
def splitSentencesF : ℕ → List Char → List Char → List (List Char)
  | 0, acc, _ => [acc.reverse]
  | fuel + 1, acc, s =>
    match s with
    | [] => [acc.reverse]
    | c :: cs =>
      if isEndPunct c && headIsSpace cs then
        (c :: acc).reverse :: splitSentencesF fuel [] (cs.dropWhile isPySpace)
      else
        splitSentencesF fuel (c :: acc) cs

/-- The sentence split. -/
def splitSentences (s : List Char) : List (List Char) := splitSentencesF s.length [] s

/-- `s.replace('<DOT>', '.')`: left-to-right replacement of the marker. -/
def restoreDotsF : ℕ → List Char → List Char
  | 0, s => s
  | fuel + 1, s =>
    match s with
    | [] => []
    | c :: cs =>
      if startsWithChars dotToken (c :: cs) then
        '.' :: restoreDotsF fuel ((c :: cs).drop dotToken.length)
      else
        c :: restoreDotsF fuel cs

/-- The marker-restoring replacement. -/
def restoreDots (s : List Char) : List Char := restoreDotsF s.length s

/-- Python `str.strip()`: drop whitespace from both ends. -/
def pyStrip (s : List Char) : List Char :=
  ((s.dropWhile isPySpace).reverse.dropWhile isPySpace).reverse

/-- `TextCleaner.extract_sentences` (cleaners.py lines 177–183): protect
abbreviations, split, then keep `strip(replace(s))` for exactly the fragments
`s` with `len(s) > 10` — the length test runs on the *protected* fragment,
before `<DOT>` is turned back into `.` and before stripping. -/
def extract_sentences (text : List Char) : List (List Char) :=
  let t := protectDots text
  let sentences := splitSentences t
  sentences.filterMap fun s =>
    if 10 < s.length then some (pyStrip (restoreDots s)) else Option.none

end TextCleaner

/-- Counterexample to claim C9: on the input `"Dr.Mr.x"` the single protected
fragment `"Dr<DOT>Mr<DOT>x"` has 15 characters, passes the `len(s) > 10`
filter, and is returned as `"Dr.Mr.x"` — a fragment of only 7 characters, so
not every returned fragment has at least 10 characters. -/
theorem C9_extract_sentences_counterexample :
    TextCleaner.extract_sentences ("Dr.Mr.x".toList) = ["Dr.Mr.x".toList] ∧
      ("Dr.Mr.x".toList).length < 10 := by decide

/-- Claim C9 as amended: sentence segmentation splits on sentence-ending
punctuation followed by whitespace while protecting the fixed abbreviation
set, and the returned values are exactly the dot-restored, stripped forms of
the fragments whose *protected* form is strictly longer than 10 characters;
fragments of protected length ≤ 10 are discarded, and a returned string may
itself be shorter than 10 characters once `<DOT>` markers shrink back to
`.` or surrounding whitespace is stripped. -/
theorem C9_extract_sentences_amended : ∀ text s : List Char,
    s ∈ TextCleaner.extract_sentences text ↔
      ∃ f ∈ TextCleaner.splitSentences (TextCleaner.protectDots text),
        10 < f.length ∧ s = TextCleaner.pyStrip (TextCleaner.restoreDots f) := by
  intro text s
  simp only [TextCleaner.extract_sentences, List.mem_filterMap]
  constructor
  · rintro ⟨f, hf, hsome⟩
    by_cases h : 10 < f.length
    · rw [if_pos h] at hsome
      injection hsome with hsome
      exact ⟨f, hf, h, hsome.symm⟩
    · rw [if_neg h] at hsome
      cases hsome
  · rintro ⟨f, hf, h, rfl⟩
    exact ⟨f, hf, by rw [if_pos h]⟩

/-! ## Claim C10: temperature extraction patterns

The four `temperature_range` regexes of `CropRequirementExtractor.PATTERNS`
(nlp_extractor.py lines 36–41) are embedded as values of a small regex
syntax whose matcher enumerates match states in the engine's backtracking
order (greedy pieces longest-first, lazy pieces shortest-first, alternatives
left-to-right).  The only capturing form the temperature patterns use is
`(\d+)`, embedded as `RE.capDigits`: it captures a non-empty run of digit
characters, so every captured group parses as a natural number — which is
what makes the −10 lower bound of the plausibility filter unreachable. -/

namespace NlpPatterns

/-- Regex fragments used by the temperature patterns: case-insensitive
literals, single-character classes, `?` on a class, `*` on a class (greedy or
lazy), the digit-capture `(\d+)`, ordered alternation and concatenation. -/
inductive RE where
  | eps
  | lit (s : List Char)
  | cls (p : Char → Bool)
  | optc (p : Char → Bool)
  | starc (lazy : Bool) (p : Char → Bool)
  | capDigits
  | alt (a b : RE)
  | seq (a b : RE)

/-- Case-insensitive character comparison (the patterns are compiled with
`re.IGNORECASE`). -/
def ciEq (a b : Char) : Bool := a.toLower == b.toLower

/-- `litPrefix l s`: `s` begins with the literal `l`, case-insensitively. -/
def litPrefix : List Char → List Char → Bool
  | [], _ => true
  | _ :: _, [] => false
  | a :: as, c :: cs => ciEq a c && litPrefix as cs

/-- The suffixes reachable by letting a class star consume 0, 1, 2, …
leading class characters, shortest consumption first (lazy order). -/
def starRests (p : Char → Bool) : List Char → List (List Char)
  | [] => [[]]
  | c :: cs => if p c then (c :: cs) :: starRests p cs else [c :: cs]

/-- The ways `(\d+)` can match a prefix of `s`: every non-empty prefix of the
maximal leading digit run, longest first (greedy with backtracking), paired
with the remaining input. -/
def digitSplits (s : List Char) : List (List Char × List Char) :=
  let d := s.takeWhile (fun c => c.isDigit)
  let r := s.dropWhile (fun c => c.isDigit)
  (List.range d.length).map fun i =>
    (d.take (d.length - i), d.drop (d.length - i) ++ r)

/-- All match states of `r` anchored at the start of `s`, as (captured
groups, remaining input) pairs in backtracking order; the head, when the list
is non-empty, is the match Python's engine reports. -/
def mtch : RE → List Char → List (List (List Char) × List Char)
  | RE.eps, s => [([], s)]
  | RE.lit l, s => if litPrefix l s then [([], s.drop l.length)] else []
  | RE.cls _, [] => []
  | RE.cls p, c :: cs => if p c then [([], cs)] else []
  | RE.optc _, [] => [([], [])]
  | RE.optc p, c :: cs => if p c then [([], cs), ([], c :: cs)] else [([], c :: cs)]
  | RE.starc lazy p, s =>
    (if lazy then starRests p s else (starRests p s).reverse).map fun r => ([], r)
  | RE.capDigits, s => (digitSplits s).map fun pr => ([pr.1], pr.2)
  | RE.alt a b, s => mtch a s ++ mtch b s
  | RE.seq a b, s =>
    (mtch a s).flatMap fun pr =>
      (mtch b pr.2).map fun pr2 => (pr.1 ++ pr2.1, pr2.2)

/-- `re.finditer`: scan left to right; at each position report the first
match state, then continue after the match (advancing at least one character
on a zero-width match, as Python does).  Fuel `|s| + 1` suffices since every
step either consumes the match or advances one position. -/
def findIterF (r : RE) : ℕ → List Char → List (List (List Char))
  | 0, _ => []
  | fuel + 1, s =>
    match mtch r s with
    | (gs, rest) :: _ =>
      gs :: (if rest.length < s.length then findIterF r fuel rest
             else
               match s with
               | [] => []
               | _ :: cs => findIterF r fuel cs)
    | [] =>
      match s with
      | [] => []
      | _ :: cs => findIterF r fuel cs

/-- The group lists of all matches of `r` in `s`, in `finditer` order. -/
def findIter (r : RE) (s : List Char) : List (List (List Char)) :=
  findIterF r (s.length + 1) s

/-- `float()` on a captured digit run: the denoted natural number. -/
def natOfDigits (g : List Char) : ℕ :=
  g.foldl (fun n c => 10 * n + (c.toNat - '0'.toNat)) 0

/-- Concatenation of a list of fragments. -/
def seqL (rs : List RE) : RE := rs.foldr RE.seq RE.eps

/-- `[^\d]`. -/
def nonDigit (c : Char) : Bool := !c.isDigit

/-- `[°°\s]` (the degree sign appears twice in the source class). -/
def degOrSpace (c : Char) : Bool := c == '°' || TextCleaner.isPySpace c

/-- `[Cc]`. -/
def isCc (c : Char) : Bool := c == 'C' || c == 'c'

/-- `.` without DOTALL: any character except a newline. -/
def anyChar (c : Char) : Bool := c != '\n'

/-- `°`. -/
def isDeg (c : Char) : Bool := c == '°'

/-- `(?:to|and|-)`. -/
def toAndDash : RE :=
  RE.alt (RE.lit "to".toList) (RE.alt (RE.lit "and".toList) (RE.lit "-".toList))

/-- `(?:to|-)`. -/
def toOrDash : RE := RE.alt (RE.lit "to".toList) (RE.lit "-".toList)

/-- `(?:temperature|temp)[^\d]*(\d+)[°°\s]*[Cc][^\d]*(?:to|and|-)[^\d]*(\d+)[°°\s]*[Cc]`. -/
def pattern1 : RE := seqL
  [RE.alt (RE.lit "temperature".toList) (RE.lit "temp".toList),
    RE.starc false nonDigit, RE.capDigits, RE.starc false degOrSpace, RE.cls isCc,
    RE.starc false nonDigit, toAndDash, RE.starc false nonDigit,
    RE.capDigits, RE.starc false degOrSpace, RE.cls isCc]

/-- `(\d+)\s*°?[Cc]\s*(?:to|-)\s*(\d+)\s*°?[Cc]`. -/
def pattern2 : RE := seqL
  [RE.capDigits, RE.starc false TextCleaner.isPySpace, RE.optc isDeg, RE.cls isCc,
    RE.starc false TextCleaner.isPySpace, toOrDash,
    RE.starc false TextCleaner.isPySpace, RE.capDigits,
    RE.starc false TextCleaner.isPySpace, RE.optc isDeg, RE.cls isCc]

/-- `optimal.*?(\d+)[°°\s]*[Cc].*?(?:to|and|-).*?(\d+)[°°\s]*[Cc]`. -/
def pattern3 : RE := seqL
  [RE.lit "optimal".toList, RE.starc true anyChar, RE.capDigits,
    RE.starc false degOrSpace, RE.cls isCc, RE.starc true anyChar, toAndDash,
    RE.starc true anyChar, RE.capDigits, RE.starc false degOrSpace, RE.cls isCc]

/-- `grow.*?between.*?(\d+)[°°\s]*[Cc].*?and.*?(\d+)[°°\s]*[Cc]`. -/
def pattern4 : RE := seqL
  [RE.lit "grow".toList, RE.starc true anyChar, RE.lit "between".toList,
    RE.starc true anyChar, RE.capDigits, RE.starc false degOrSpace, RE.cls isCc,
    RE.starc true anyChar, RE.lit "and".toList, RE.starc true anyChar,
    RE.capDigits, RE.starc false degOrSpace, RE.cls isCc]

/-- `PATTERNS['temperature_range']` in source order. -/
def temperature_range : List RE := [pattern1, pattern2, pattern3, pattern4]

/-- `CropRequirementExtractor._extract_temperature` (nlp_extractor.py lines
117–130): try the patterns in order; within a pattern, walk the `finditer`
matches and return the first whose two captured groups, parsed as numbers,
both pass the plausibility filter `-10 <= t <= 50`; a match without two
groups (`IndexError`) is skipped.  The evidence snippet `match.group(0)` is
not modeled — no claim depends on its content. -/
def extract_temperature (text : List Char) : Option (ℚ × ℚ) :=
  temperature_range.findSome? fun p =>
    (findIter p text).findSome? fun gs =>
      match gs with
      | g1 :: g2 :: _ =>
        let min_temp : ℚ := (natOfDigits g1 : ℚ)
        let max_temp : ℚ := (natOfDigits g2 : ℚ)
        if -10 ≤ min_temp ∧ min_temp ≤ 50 ∧ -10 ≤ max_temp ∧ max_temp ≤ 50 then
          some (min_temp, max_temp)
        else Option.none
      | _ => Option.none

end NlpPatterns

/-- `findSome?` inversion: a produced value comes from some list element. -/
theorem findSome?_inv {α β : Type} (f : α → Option β) (l : List α) (b : β)
    (h : l.findSome? f = some b) : ∃ a ∈ l, f a = some b := by
  induction l with
  | nil => cases h
  | cons x xs ih =>
    rw [List.findSome?_cons] at h
    cases hfx : f x with
    | some c =>
      rw [hfx] at h
      injection h with h
      subst h
      exact ⟨x, List.mem_cons_self x xs, hfx⟩
    | none =>
      rw [hfx] at h
      obtain ⟨a, ha, hfa⟩ := ih h
      exact ⟨a, List.mem_cons_of_mem x ha, hfa⟩

/-- Claim C10: every temperature pair `_extract_temperature` returns is
non-negative — the temperature patterns capture unsigned digit sequences
only, so the −10 lower bound of the plausibility filter is unreachable and
the effective accepted range is [0, 50] for both values. -/
theorem C10_temperature_nonneg : ∀ (text : List Char) (a b : ℚ),
    NlpPatterns.extract_temperature text = some (a, b) →
    0 ≤ a ∧ a ≤ 50 ∧ 0 ≤ b ∧ b ≤ 50 := by
  intro text a b h
  obtain ⟨p, _, h2⟩ := findSome?_inv _ _ _ h
  obtain ⟨gs, _, h3⟩ := findSome?_inv _ _ _ h2
  match gs with
  | [] => cases h3
  | [g1] => cases h3
  | g1 :: g2 :: rest =>
    simp only at h3
    split_ifs at h3 with hg
    · obtain ⟨hg1, hg2, hg3, hg4⟩ := hg
      injection h3 with h3
      rw [Prod.ext_iff] at h3
      obtain ⟨h3a, h3b⟩ := h3
      subst h3a
      subst h3b
      exact ⟨Nat.cast_nonneg _, hg2, Nat.cast_nonneg _, hg4⟩

/-- Witness for `C10_temperature_nonneg`: on `"10C to 20C"` the extractor
returns the pair (10, 20), and the theorem's bounds hold for it. -/
theorem C10_temperature_witness :
    0 ≤ (10 : ℚ) ∧ (10 : ℚ) ≤ 50 ∧ 0 ≤ (20 : ℚ) ∧ (20 : ℚ) ≤ 50 :=
  C10_temperature_nonneg ("10C to 20C".toList) 10 20 (by decide)
